import Mathlib

/-!
Verification of the Noir_Navigator character/event data model
(src/character_class.py), as a shallow embedding in Lean 4.

Python integers are modelled by `Int`, Python strings by `String`,
Python lists by `List`, and Python dicts (string-keyed, insertion
ordered) by association lists `List (String × α)` with dict-style
update semantics. Methods that mutate `self` become state-passing
functions returning the updated record (paired with the Python
return value where there is one).
-/

namespace NoirNav

/-- Embeds the `Character` dataclass (src/character_class.py lines 8-25):
field names and order follow the source. -/
structure Character where
  name : String
  symbol : String
  max_hp : Int
  current_hp : Int
  cash : Int
  player_control : Bool
  is_living : Bool
  inventory : List String
  skills : List String
  archetype : String
  background : String
  physical_description : String
  condition : String
  goals : String
  contextualized : Bool
deriving DecidableEq

/-- Embeds dataclass construction followed by `__post_init__` (lines 27-30).
`current_hp` is declared `field(init=False)` with no default, so at
`__post_init__` time `hasattr(self, 'current_hp')` is always false and the
body unconditionally assigns `current_hp = max_hp`. All `init` parameters
of the dataclass are arguments here, in source order. -/
def mkCharacter (n s : String) (mh ca : Int) (pc liv : Bool)
    (inv skl : List String) (ar bg pd cd gl : String) (cx : Bool) : Character :=
  { name := n, symbol := s, max_hp := mh, current_hp := mh, cash := ca,
    player_control := pc, is_living := liv, inventory := inv, skills := skl,
    archetype := ar, background := bg, physical_description := pd,
    condition := cd, goals := gl, contextualized := cx }

/-- A `Character()` built with every dataclass default (lines 11-25). -/
def defaultCharacter : Character :=
  mkCharacter "" "🤖" 6 0 false true [] [] "" "" "" "" "" false

/-- Embeds `Character.take_damage` (lines 165-171): clamp hp at zero,
flip liveness and return `True` when the clamped hp is `<= 0`. -/
def Character.takeDamage (c : Character) (damage : Int) : Character × Bool :=
  let hp := max 0 (c.current_hp - damage)
  if hp ≤ 0 then ({ c with current_hp := hp, is_living := false }, true)
  else ({ c with current_hp := hp }, false)

/-- Embeds `Character.heal` (lines 173-180): early return 0 when not
living, else clamp at `max_hp` and return the delta. -/
def Character.heal (c : Character) (amount : Int) : Character × Int :=
  if !c.is_living then (c, 0)
  else ({ c with current_hp := min c.max_hp (c.current_hp + amount) },
        min c.max_hp (c.current_hp + amount) - c.current_hp)

/-- Embeds `Character.set_max_hp` (lines 85-89): store the new max, then
lower `current_hp` to it only when `current_hp` exceeds it. -/
def Character.setMaxHp (c : Character) (m : Int) : Character :=
  if c.current_hp > m then { c with max_hp := m, current_hp := m }
  else { c with max_hp := m }

/-- Embeds `Character.set_current_hp` (lines 91-94): clamp into
`[0, max_hp]`, then force `is_living := false` when the result is `<= 0`. -/
def Character.setCurrentHp (c : Character) (x : Int) : Character :=
  let hp := max 0 (min x c.max_hp)
  if hp ≤ 0 then { c with current_hp := hp, is_living := false }
  else { c with current_hp := hp }

/-- Embeds `Character.set_is_living` (lines 102-103). -/
def Character.setIsLiving (c : Character) (b : Bool) : Character :=
  { c with is_living := b }

/-- Embeds `Character.set_skills` (lines 108-109): plain replacement,
no deduplication. -/
def Character.setSkills (c : Character) (s : List String) : Character :=
  { c with skills := s }

/-- Embeds `Character.learn_skill` (lines 193-196): append only when the
skill is not already present. -/
def Character.learnSkill (c : Character) (skill : String) : Character :=
  if skill ∈ c.skills then c else { c with skills := c.skills ++ [skill] }

/-- The persisted character record: the JSON object written by
`CharacterManager.export_character` (lines 267-283) and read back by
`load_character` (lines 290-310). `current_hp` is `Option Int` because
`load_character` pops it with default `None`; `export_character` always
writes it. -/
structure CharDict where
  name : String
  symbol : String
  max_hp : Int
  current_hp : Option Int
  cash : Int
  player_control : Bool
  is_living : Bool
  inventory : List String
  skills : List String
  archetype : String
  background : String
  physical_description : String
  condition : String
  goals : String
  contextualized : Bool
deriving DecidableEq

/-- Embeds the dictionary built by `CharacterManager.export_character`
(lines 267-283); file I/O and JSON encoding, faithful for these plain
field types, are abstracted away. -/
def exportCharacter (c : Character) : CharDict :=
  { name := c.name, symbol := c.symbol, max_hp := c.max_hp,
    current_hp := some c.current_hp, cash := c.cash,
    player_control := c.player_control, is_living := c.is_living,
    inventory := c.inventory, skills := c.skills, archetype := c.archetype,
    background := c.background, physical_description := c.physical_description,
    condition := c.condition, goals := c.goals,
    contextualized := c.contextualized }

/-- Embeds `CharacterManager.load_character` (lines 290-310) on the parsed
record: pop `current_hp` (defaulting to `None`), build the `Character`
from the remaining fields, then overwrite `current_hp` when a value was
present. The file-not-found branch is outside this pure fragment. -/
def loadCharacter (d : CharDict) : Character :=
  let c := mkCharacter d.name d.symbol d.max_hp d.cash d.player_control
    d.is_living d.inventory d.skills d.archetype d.background
    d.physical_description d.condition d.goals d.contextualized
  match d.current_hp with
  | some hp => { c with current_hp := hp }
  | none => c

/-- Export followed by load restores the character exactly (shared helper). -/
theorem load_export_eq (c : Character) : loadCharacter (exportCharacter c) = c := rfl

/-- The hp bounds invariant of the spec: `0 <= current_hp <= max_hp`. -/
abbrev hpInv (c : Character) : Prop := 0 ≤ c.current_hp ∧ c.current_hp ≤ c.max_hp

/-- The liveness invariant of the spec: `is_living` is false whenever
`current_hp` is 0. -/
abbrev deadInv (c : Character) : Prop := c.current_hp = 0 → c.is_living = false

/-- Embeds the `EventTemplate` dataclass (lines 431-446); the
`__post_init__` that replaces a `None` tag list by `[]` is absorbed by
making `tags` a plain list. -/
structure EventTemplate where
  id : String
  name : String
  description : String
  triggers : List String
  possible_outcomes : List String
  required_tools : List String
  context_hints : List String
  difficulty : String
  tags : List String
deriving DecidableEq

/-- Embeds the `GameEvent` dataclass (lines 448-458). `character_changes`
is `Dict[str, Any]` in the source; the code under verification only ever
stores it empty, so its values are modelled as strings. -/
structure GameEvent where
  template_id : String
  template_name : String
  contextualized_description : String
  outcome : String
  character_changes : List (String × String)
  timestamp : String
  player_action : String
  event_number : Nat
deriving DecidableEq

/-- One value of the `event_stats` dict (lines 717-724): keys `'name'`,
`'count'`, `'last_triggered'` (initially `None`). -/
structure StatsEntry where
  name : String
  count : Int
  last_triggered : Option String
deriving DecidableEq

/-- Python dict lookup `m.get(k)` on a string-keyed, insertion-ordered
dict modelled as an association list. -/
def dictGet {α : Type} (m : List (String × α)) (k : String) : Option α :=
  match m with
  | [] => none
  | (k', v) :: rest => if k' = k then some v else dictGet rest k

/-- Python dict assignment `m[k] = v`: overwrite in place when the key is
present, else append at the end. -/
def dictSet {α : Type} (m : List (String × α)) (k : String) (v : α) :
    List (String × α) :=
  match m with
  | [] => [(k, v)]
  | (k', v') :: rest =>
    if k' = k then (k, v) :: rest else (k', v') :: dictSet rest k v

/-- Python `del m[k]`: drop the entry with the given key. -/
def dictErase {α : Type} (m : List (String × α)) (k : String) :
    List (String × α) :=
  match m with
  | [] => []
  | (k', v') :: rest =>
    if k' = k then rest else (k', v') :: dictErase rest k

/-- Embeds the statistics update of `execute_event_template`
(lines 716-724): initialize the entry to `{name, count: 0,
last_triggered: None}` when absent, then `count += 1` and
`last_triggered = now`. Absent key therefore ends at count 1. -/
def bumpStats (m : List (String × StatsEntry)) (k nm now : String) :
    List (String × StatsEntry) :=
  match m with
  | [] => [(k, { name := nm, count := 1, last_triggered := some now })]
  | (k', e) :: rest =>
    if k' = k then
      (k, { e with count := e.count + 1, last_triggered := some now }) :: rest
    else (k', e) :: bumpStats rest k nm now

/-- Embeds the mutable parts of `GameState` (lines 741-748) that the
verified operations read or write: the character map, the template
catalog held by its `event_manager`, the event history, the story log,
the current-event pointer and the per-template statistics. -/
structure GameState where
  characters : List (String × Character)
  templates : List (String × EventTemplate)
  event_history : List GameEvent
  story_log : List String
  current_event : Option GameEvent
  event_stats : List (String × StatsEntry)
deriving DecidableEq

/-- The two return branches of `execute_event_template`: the
`"Event template '...' not found"` string of line 694, carrying the
unknown id, and the `"🎲 EVENT #n: name 🎲..."` string of line 734,
carrying the event number and template name it interpolates. -/
inductive ExecResult where
  | templateNotFound : String → ExecResult
  | executed : Nat → String → ExecResult
deriving DecidableEq

/-- Embeds `execute_event_template` (lines 679-736). `datetime.now()` is
an input `now`; the two `isoformat()` calls in the body are modelled by
this same value. Unknown template id: report failure, touch nothing.
Known id: build the `GameEvent` with empty outcome and empty change map
and sequence number `len(history) + 1`, append it, set it current, and
update the statistics via `bumpStats`. -/
def executeEventTemplate (gs : GameState) (template_id player_action now : String) :
    GameState × ExecResult :=
  match dictGet gs.templates template_id with
  | none => (gs, ExecResult.templateNotFound template_id)
  | some template =>
    let event_number := gs.event_history.length + 1
    let game_event : GameEvent :=
      { template_id := template_id, template_name := template.name,
        contextualized_description := template.description,
        outcome := "", character_changes := [],
        timestamp := now, player_action := player_action,
        event_number := event_number }
    ({ gs with event_history := gs.event_history ++ [game_event],
               current_event := some game_event,
               event_stats := bumpStats gs.event_stats template_id template.name now },
     ExecResult.executed event_number template.name)

/-- The two return branches of `undo_last_event`: the
`"Undid event #n: name"` string (line 1016) and the
`"No events to undo"` string (line 1017). -/
inductive UndoResult where
  | undid : Nat → String → UndoResult
  | noEvents : UndoResult
deriving DecidableEq

/-- Embeds `RPGGameEngine.undo_last_event` (lines 994-1017): pop the last
event, decrement (and possibly delete) its statistics entry, clear the
current-event pointer when it referenced the popped event, and drop the
trailing two story-log entries when at least two exist. Character state
is never touched. -/
def undoLastEvent (gs : GameState) : GameState × UndoResult :=
  match gs.event_history.getLast? with
  | none => (gs, UndoResult.noEvents)
  | some last_event =>
    let stats' :=
      match dictGet gs.event_stats last_event.template_id with
      | none => gs.event_stats
      | some e =>
        if e.count - 1 ≤ 0 then dictErase gs.event_stats last_event.template_id
        else dictSet gs.event_stats last_event.template_id { e with count := e.count - 1 }
    let current' :=
      match gs.current_event with
      | some ce => if ce.event_number = last_event.event_number then none else some ce
      | none => none
    let log' :=
      if 2 ≤ gs.story_log.length then gs.story_log.dropLast.dropLast
      else gs.story_log
    ({ gs with event_history := gs.event_history.dropLast,
               event_stats := stats', current_event := current',
               story_log := log' },
     UndoResult.undid last_event.event_number last_event.template_name)

/-- A character killed by damage: hp 0, not living. -/
def deadChar : Character := (defaultCharacter.takeDamage 6).1

/-- A character given a duplicated skill list through the public setter
`set_skills`, which does not deduplicate. -/
def dupSkillChar : Character := defaultCharacter.setSkills ["Hacking", "Hacking"]

/-- A concrete event template, shaped like the seeded
`combat_encounter` template. -/
def sampleTemplate : EventTemplate :=
  { id := "combat_encounter", name := "Combat Encounter",
    description := "Hostile enemies appear.",
    triggers := ["fighting"], possible_outcomes := ["Victory"],
    required_tools := ["modify_character_hp"],
    context_hints := ["party strength"], difficulty := "hard",
    tags := ["combat"] }

/-- A concrete game state with one character and one template. -/
def sampleState : GameState :=
  { characters := [("Zero Cool", defaultCharacter)],
    templates := [("combat_encounter", sampleTemplate)],
    event_history := [], story_log := ["Player: attack", "GM: a fight"],
    current_event := none, event_stats := [] }

/-- The sample state after one recorded event; its history is non-empty. -/
def sampleStateWithHistory : GameState :=
  (executeEventTemplate sampleState "combat_encounter" "attack" "t0").1

/-- Looking up the key just updated by `bumpStats` yields the old entry
with its count incremented and its timestamp refreshed, or a fresh entry
of count 1 when the key was absent. -/
theorem dictGet_bumpStats (m : List (String × StatsEntry)) (k nm now : String) :
    dictGet (bumpStats m k nm now) k =
      some { name := (match dictGet m k with | some e => e.name | none => nm),
             count := (match dictGet m k with | some e => e.count | none => 0) + 1,
             last_triggered := some now } := by
  induction m with
  | nil => simp [bumpStats, dictGet]
  | cons hd tl ih =>
    obtain ⟨k', e⟩ := hd
    by_cases hk : k' = k
    · subst hk
      simp [bumpStats, dictGet]
    · simp [bumpStats, dictGet, hk, ih]

/-- C1 (counterexample): `take_damage` does not return "this call caused
the character's death". A character already dead at 0 hp takes 0 damage:
the call returns `True` although the character was not living before it,
so the return value is not equivalent to "living before and 0 hp after". -/
theorem c1_counterexample :
    deadChar.is_living = false ∧
    ¬ (((deadChar.takeDamage 0).2 = true) ↔
        (deadChar.is_living = true ∧ (deadChar.takeDamage 0).1.current_hp = 0)) := by
  decide

/-- C1 (amended): for every character and every d ≥ 0, `take_damage d`
sets `current_hp` to `max 0 (current_hp - d)`; it sets `is_living` to
false when the resulting hp is 0 and leaves it unchanged otherwise; and
it returns true exactly when the resulting hp is 0 (regardless of
whether the character was living before the call). -/
theorem c1_amended (c : Character) (d : Int) (_hd : 0 ≤ d) :
    (c.takeDamage d).1.current_hp = max 0 (c.current_hp - d) ∧
    (c.takeDamage d).1.is_living =
      (if max 0 (c.current_hp - d) = 0 then false else c.is_living) ∧
    ((c.takeDamage d).2 = true ↔ max 0 (c.current_hp - d) = 0) := by
  by_cases hcond : max 0 (c.current_hp - d) ≤ 0
  · have h0 : max 0 (c.current_hp - d) = 0 := by omega
    simp [Character.takeDamage, hcond, h0]
  · have h0 : ¬ max 0 (c.current_hp - d) = 0 := by omega
    simp [Character.takeDamage, hcond, h0]

/-- C1 (witness): the amended theorem at the default character and d = 2. -/
theorem c1_witness :
    (0 : Int) ≤ 2 ∧
    ((defaultCharacter.takeDamage 2).1.current_hp =
        max 0 (defaultCharacter.current_hp - 2) ∧
      (defaultCharacter.takeDamage 2).1.is_living =
        (if max 0 (defaultCharacter.current_hp - 2) = 0 then false
         else defaultCharacter.is_living) ∧
      ((defaultCharacter.takeDamage 2).2 = true ↔
        max 0 (defaultCharacter.current_hp - 2) = 0)) :=
  ⟨by decide, c1_amended defaultCharacter 2 (by decide)⟩

/-- C3 (confirmed): for every character and every h ≥ 0, if the
character is living then `heal h` sets `current_hp` to
`min max_hp (current_hp + h)` and returns exactly the hp delta; if the
character is not living then `heal h` returns 0 and leaves the whole
state unchanged. -/
theorem c3_confirmed (c : Character) (h : Int) (_hh : 0 ≤ h) :
    (c.is_living = true →
      (c.heal h).1.current_hp = min c.max_hp (c.current_hp + h) ∧
      (c.heal h).2 = (c.heal h).1.current_hp - c.current_hp) ∧
    (c.is_living = false → c.heal h = (c, 0)) := by
  constructor
  · intro hl
    simp [Character.heal, hl]
  · intro hl
    simp [Character.heal, hl]

/-- C3 (witness): the theorem at the default (living) character and at
the dead character, with h = 3. -/
theorem c3_witness :
    (0 : Int) ≤ 3 ∧
    ((defaultCharacter.is_living = true →
      (defaultCharacter.heal 3).1.current_hp =
        min defaultCharacter.max_hp (defaultCharacter.current_hp + 3) ∧
      (defaultCharacter.heal 3).2 =
        (defaultCharacter.heal 3).1.current_hp - defaultCharacter.current_hp) ∧
    (defaultCharacter.is_living = false → defaultCharacter.heal 3 = (defaultCharacter, 0))) :=
  ⟨by decide, c3_confirmed defaultCharacter 3 (by decide)⟩

/-- C4 (confirmed): exporting any character and loading the written
record yields a character equal to the original in every persisted
field — in particular `current_hp` survives, also when it differs from
`max_hp` and when it is 0. -/
theorem c4_confirmed (c : Character) : loadCharacter (exportCharacter c) = c :=
  load_export_eq c

/-- C9 (counterexample): `learn_skill` called twice is not guaranteed to
leave exactly one occurrence. A character whose skill list already holds
"Hacking" twice (built with the public setter `set_skills`) still holds
it twice after two `learn_skill "Hacking"` calls. -/
theorem c9_counterexample :
    ((dupSkillChar.learnSkill "Hacking").learnSkill "Hacking").skills.count "Hacking" = 2 ∧
    ¬ ((dupSkillChar.learnSkill "Hacking").learnSkill "Hacking").skills.count "Hacking" = 1 := by
  decide

/-- C9 (amended): for every character whose skill list holds the skill
at most once — in particular any list built only through `learn_skill` —
calling `learn_skill` twice with that skill leaves exactly one
occurrence of it. -/
theorem c9_amended (c : Character) (s : String) (hcount : c.skills.count s ≤ 1) :
    ((c.learnSkill s).learnSkill s).skills.count s = 1 := by
  by_cases hmem : s ∈ c.skills
  · have h1 : 0 < c.skills.count s := List.count_pos_iff.mpr hmem
    simp [Character.learnSkill, hmem]
    omega
  · have h0 : c.skills.count s = 0 := List.count_eq_zero.mpr hmem
    have hmem2 : s ∈ c.skills ++ [s] := by simp
    simp [Character.learnSkill, hmem, hmem2, List.count_append, h0]

/-- C9 (witness): the amended theorem at the default character, whose
empty skill list trivially holds "Hacking" at most once. -/
theorem c9_witness :
    defaultCharacter.skills.count "Hacking" ≤ 1 ∧
    ((defaultCharacter.learnSkill "Hacking").learnSkill "Hacking").skills.count "Hacking" = 1 :=
  ⟨by decide, c9_amended defaultCharacter "Hacking" (by decide)⟩

/-- C10 (confirmed): direct construction with any combination of the
constructor fields yields a character whose `current_hp` equals its
`max_hp`, because `current_hp` is not a constructor parameter and
`__post_init__` always assigns it from `max_hp`. -/
theorem c10_confirmed (n s : String) (mh ca : Int) (pc liv : Bool)
    (inv skl : List String) (ar bg pd cd gl : String) (cx : Bool) :
    (mkCharacter n s mh ca pc liv inv skl ar bg pd cd gl cx).current_hp =
      (mkCharacter n s mh ca pc liv inv skl ar bg pd cd gl cx).max_hp := rfl

/-- C2 (counterexample): the hp bounds invariant is not preserved by
every public operation: `set_max_hp (-1)` on the default character drops
`current_hp` to -1, violating `0 <= current_hp`. -/
theorem c2_counterexample : ¬ hpInv (defaultCharacter.setMaxHp (-1)) := by
  decide

/-- C2 (amended): `0 <= current_hp <= max_hp` holds after construction
whenever the supplied `max_hp` is non-negative, and is preserved by
`take_damage` with d ≥ 0, `heal` with h ≥ 0, `set_current_hp` with any
argument, `set_max_hp` with a non-negative new maximum, and loading a
file exported from a character satisfying the invariant; `set_max_hp`
with a negative argument can break it. -/
theorem c2_amended (n s : String) (mh ca : Int) (pc liv : Bool)
    (inv skl : List String) (ar bg pd cd gl : String) (cx : Bool)
    (c : Character) (d h x m : Int)
    (hmh : 0 ≤ mh) (hc : hpInv c) (hd : 0 ≤ d) (hh : 0 ≤ h) (hm : 0 ≤ m) :
    hpInv (mkCharacter n s mh ca pc liv inv skl ar bg pd cd gl cx) ∧
    hpInv (c.takeDamage d).1 ∧
    hpInv (c.heal h).1 ∧
    hpInv (c.setCurrentHp x) ∧
    hpInv (c.setMaxHp m) ∧
    hpInv (loadCharacter (exportCharacter c)) := by
  obtain ⟨h1, h2⟩ := hc
  refine ⟨⟨hmh, le_refl mh⟩, ?_, ?_, ?_, ?_, ?_⟩
  · by_cases hcond : max 0 (c.current_hp - d) ≤ 0 <;>
      simp [Character.takeDamage, hcond, hpInv] <;> omega
  · by_cases hl : c.is_living <;>
      simp [Character.heal, hl, hpInv] <;> omega
  · by_cases hcond : max 0 (min x c.max_hp) ≤ 0 <;>
      simp [Character.setCurrentHp, hcond, hpInv] <;> omega
  · by_cases hgt : c.current_hp > m <;>
      simp [Character.setMaxHp, hgt, hpInv] <;> omega
  · rw [load_export_eq]
    exact ⟨h1, h2⟩

/-- C2 (witness): the amended theorem at the default character with
max_hp 6 and the arguments d = 1, h = 1, x = 1, m = 1. -/
theorem c2_witness :
    ((0 : Int) ≤ 6 ∧ hpInv defaultCharacter ∧ (0 : Int) ≤ 1) ∧
    (hpInv (mkCharacter "" "🤖" 6 0 false true [] [] "" "" "" "" "" false) ∧
      hpInv (defaultCharacter.takeDamage 1).1 ∧
      hpInv (defaultCharacter.heal 1).1 ∧
      hpInv (defaultCharacter.setCurrentHp 1) ∧
      hpInv (defaultCharacter.setMaxHp 1) ∧
      hpInv (loadCharacter (exportCharacter defaultCharacter))) :=
  ⟨⟨by decide, by decide, by decide⟩,
    c2_amended "" "🤖" 6 0 false true [] [] "" "" "" "" "" false
      defaultCharacter 1 1 1 1 (by decide) (by decide) (by decide) (by decide) (by decide)⟩

/-- C5 (counterexample): the liveness invariant is not preserved by
every public operation: `set_max_hp 0` on the default living character
clamps `current_hp` to 0 while leaving `is_living` true. -/
theorem c5_counterexample : ¬ deadInv (defaultCharacter.setMaxHp 0) := by
  decide

/-- C5 (amended): "`is_living` is false whenever `current_hp` is 0"
holds after construction whenever the supplied `max_hp` is non-zero, and
is preserved by `take_damage` with any amount and `set_current_hp` with
any value, and by `heal` with h ≥ 0 on a character also satisfying the
hp bounds invariant; it is not preserved by `set_is_living true` or by
`set_max_hp 0`. -/
theorem c5_amended (n s : String) (mh ca : Int) (pc liv : Bool)
    (inv skl : List String) (ar bg pd cd gl : String) (cx : Bool)
    (c : Character) (d h x : Int)
    (hmh : mh ≠ 0) (hc : deadInv c) (hb : hpInv c) (hh : 0 ≤ h) :
    deadInv (mkCharacter n s mh ca pc liv inv skl ar bg pd cd gl cx) ∧
    deadInv (c.takeDamage d).1 ∧
    deadInv (c.heal h).1 ∧
    deadInv (c.setCurrentHp x) := by
  obtain ⟨hb1, hb2⟩ := hb
  refine ⟨fun h0 => absurd h0 hmh, ?_, ?_, ?_⟩
  · by_cases hcond : max 0 (c.current_hp - d) ≤ 0
    · simp [Character.takeDamage, hcond, deadInv]
    · intro h0
      exfalso
      simp [Character.takeDamage, hcond] at h0
      omega
  · by_cases hl : c.is_living = true
    · have hne : c.current_hp ≠ 0 := fun h0 => by simp [hc h0] at hl
      intro h0
      exfalso
      simp [Character.heal, hl] at h0
      omega
    · have hl' : c.is_living = false := by
        revert hl
        cases c.is_living <;> simp
      simp [Character.heal, hl']
      exact hc
  · by_cases hcond : max 0 (min x c.max_hp) ≤ 0
    · simp [Character.setCurrentHp, hcond, deadInv]
    · intro h0
      exfalso
      simp [Character.setCurrentHp, hcond] at h0
      omega

/-- C5 (witness): the amended theorem at the default character with
max_hp 6 and the arguments d = 1, h = 1, x = 1. -/
theorem c5_witness :
    ((6 : Int) ≠ 0 ∧ deadInv defaultCharacter ∧ hpInv defaultCharacter ∧ (0 : Int) ≤ 1) ∧
    (deadInv (mkCharacter "" "🤖" 6 0 false true [] [] "" "" "" "" "" false) ∧
      deadInv (defaultCharacter.takeDamage 1).1 ∧
      deadInv (defaultCharacter.heal 1).1 ∧
      deadInv (defaultCharacter.setCurrentHp 1)) :=
  ⟨⟨by decide, by decide, by decide, by decide⟩,
    c5_amended "" "🤖" 6 0 false true [] [] "" "" "" "" "" false
      defaultCharacter 1 1 1 (by decide) (by decide) (by decide) (by decide)⟩

/-- C6 (confirmed): recording an event through a known template id
builds a `GameEvent` numbered history-length-before + 1, with empty
outcome and empty character-change map, appends it to the history, sets
it as the current event, and updates the per-template statistics entry:
its count becomes previous count + 1 (1 when the entry was absent) and
its last-triggered timestamp becomes the current time. -/
theorem c6_confirmed (gs : GameState) (tid action now : String) (tpl : EventTemplate)
    (hget : dictGet gs.templates tid = some tpl) :
    (executeEventTemplate gs tid action now).1.event_history =
      gs.event_history ++
        [{ template_id := tid, template_name := tpl.name,
           contextualized_description := tpl.description, outcome := "",
           character_changes := [], timestamp := now, player_action := action,
           event_number := gs.event_history.length + 1 }] ∧
    (executeEventTemplate gs tid action now).1.current_event =
      some { template_id := tid, template_name := tpl.name,
             contextualized_description := tpl.description, outcome := "",
             character_changes := [], timestamp := now, player_action := action,
             event_number := gs.event_history.length + 1 } ∧
    dictGet (executeEventTemplate gs tid action now).1.event_stats tid =
      some { name := (match dictGet gs.event_stats tid with
                      | some e => e.name
                      | none => tpl.name),
             count := (match dictGet gs.event_stats tid with
                       | some e => e.count
                       | none => 0) + 1,
             last_triggered := some now } ∧
    (executeEventTemplate gs tid action now).2 =
      ExecResult.executed (gs.event_history.length + 1) tpl.name := by
  simp only [executeEventTemplate, hget]
  refine ⟨trivial, trivial, ?_, trivial⟩
  exact dictGet_bumpStats gs.event_stats tid tpl.name now

/-- C6 (witness): the theorem at the sample state, whose catalog holds
the sample template under "combat_encounter", with empty prior history
and statistics. -/
theorem c6_witness :
    dictGet sampleState.templates "combat_encounter" = some sampleTemplate ∧
    ((executeEventTemplate sampleState "combat_encounter" "attack" "t0").1.event_history =
      sampleState.event_history ++
        [{ template_id := "combat_encounter", template_name := sampleTemplate.name,
           contextualized_description := sampleTemplate.description, outcome := "",
           character_changes := [], timestamp := "t0", player_action := "attack",
           event_number := sampleState.event_history.length + 1 }] ∧
    (executeEventTemplate sampleState "combat_encounter" "attack" "t0").1.current_event =
      some { template_id := "combat_encounter", template_name := sampleTemplate.name,
             contextualized_description := sampleTemplate.description, outcome := "",
             character_changes := [], timestamp := "t0", player_action := "attack",
             event_number := sampleState.event_history.length + 1 } ∧
    dictGet (executeEventTemplate sampleState "combat_encounter" "attack" "t0").1.event_stats
        "combat_encounter" =
      some { name := (match dictGet sampleState.event_stats "combat_encounter" with
                      | some e => e.name
                      | none => sampleTemplate.name),
             count := (match dictGet sampleState.event_stats "combat_encounter" with
                       | some e => e.count
                       | none => 0) + 1,
             last_triggered := some "t0" } ∧
    (executeEventTemplate sampleState "combat_encounter" "attack" "t0").2 =
      ExecResult.executed (sampleState.event_history.length + 1) sampleTemplate.name) :=
  ⟨rfl, c6_confirmed sampleState "combat_encounter" "attack" "t0" sampleTemplate rfl⟩

/-- C7 (confirmed): recording an event with a template id absent from
the catalog returns the original state unchanged — history, statistics
and current-event pointer included — together with the not-found report;
no exception is modelled because the source returns normally. -/
theorem c7_confirmed (gs : GameState) (tid action now : String)
    (hget : dictGet gs.templates tid = none) :
    executeEventTemplate gs tid action now = (gs, ExecResult.templateNotFound tid) := by
  simp [executeEventTemplate, hget]

/-- C7 (witness): the theorem at the sample state and the unknown id
"missing_id". -/
theorem c7_witness :
    dictGet sampleState.templates "missing_id" = none ∧
    executeEventTemplate sampleState "missing_id" "attack" "t0" =
      (sampleState, ExecResult.templateNotFound "missing_id") :=
  ⟨rfl, c7_confirmed sampleState "missing_id" "attack" "t0" rfl⟩

/-- C8 (confirmed): undoing the last event of a state with non-empty
history leaves the whole characters mapping (and the template catalog)
unchanged; only the history, the statistics, the story log and the
current-event pointer fields are touched. -/
theorem c8_confirmed (gs : GameState) (_hne : gs.event_history ≠ []) :
    (undoLastEvent gs).1.characters = gs.characters ∧
    (undoLastEvent gs).1.templates = gs.templates := by
  cases hgl : gs.event_history.getLast? with
  | none => simp [undoLastEvent, hgl]
  | some ev => simp [undoLastEvent, hgl]

/-- C8 (witness): the theorem at the sample state holding one recorded
event. -/
theorem c8_witness :
    sampleStateWithHistory.event_history ≠ [] ∧
    ((undoLastEvent sampleStateWithHistory).1.characters =
        sampleStateWithHistory.characters ∧
      (undoLastEvent sampleStateWithHistory).1.templates =
        sampleStateWithHistory.templates) :=
  ⟨by decide, c8_confirmed sampleStateWithHistory (by decide)⟩

end NoirNav
